import Mathlib

/-!
Verification of the template engine of the python-project-generator CLI.

The Python sources are shallowly embedded: pure functions become Lean
functions, filesystem-writing code becomes explicit state passing over a
finite map from paths to entries, and Python exceptions become an error
type threaded through an `Except`-with-state shape.  The base class
`ProjectTemplate` (file `src/templates/base.py`) is not part of the
source tree that was provided; its primitives are modelled from the
specification and from the unit tests that exercise them, and each such
definition is marked `Modelled from the spec:` in its doc comment.
-/

namespace ProjGen

/-! ## String helpers -/

/-- Boolean test that `needle` is a prefix of the second list (character lists). -/
def listPrefixOfChars : List Char → List Char → Bool
  | [], _ => true
  | _ :: _, [] => false
  | a :: as, b :: bs => a == b && listPrefixOfChars as bs

/-- Boolean substring test on character lists. -/
def containsSubChars (needle : List Char) : List Char → Bool
  | [] => needle.isEmpty
  | c :: t => listPrefixOfChars needle (c :: t) || containsSubChars needle t

/-- Boolean substring test on strings. -/
def containsStr (needle hay : String) : Bool :=
  containsSubChars needle.toList hay.toList

/-! ## Project-name validation (`src/cli.py`, `validate_project_name`)

The Python code is `project_name.replace("_", "").replace("-", "").isalnum()`.
`str.replace(x, "")` removes every occurrence of `x`, which on single
characters is a filter.  `str.isalnum()` is modelled on its ASCII fragment
(`Char.isAlpha` and `Char.isDigit` are exactly `A`-`Z`, `a`-`z`, `0`-`9`);
the Unicode alphanumeric categories accepted by CPython beyond ASCII are
not modelled, and the theorems below are therefore statements about the
ASCII behaviour of the validator. -/

/-- Characters kept by the two `replace(_, "")` calls: everything except underscore and hyphen. -/
def keepChar (c : Char) : Bool := !(c == '_' || c == '-')

/-- Python `str.isalnum` on a single character, ASCII fragment. -/
def pyIsAlnumChar (c : Char) : Bool := c.isAlpha || c.isDigit

/-- Python `str.isalnum` on a character list: non-empty and all alphanumeric. -/
def pyIsAlnumList (l : List Char) : Bool := !l.isEmpty && l.all pyIsAlnumChar

/-- Embedding of `validate_project_name` from `src/cli.py`. -/
def validate_project_name (s : String) : Bool :=
  pyIsAlnumList (s.toList.filter keepChar)

/-- The character set `[A-Za-z0-9_-]` named by the specification (ASCII). -/
def allowedChar (c : Char) : Bool := c.isAlpha || c.isDigit || c == '_' || c == '-'

/-! ## Filesystem model

A filesystem is an association list from paths (segment lists) to entries.
Operations mirror the smallest fragment of `pathlib` / `open` behaviour the
program uses: `mkdir(parents=True, exist_ok=True)`, `touch()`, and
`open(path, "w").write(content)`. -/

/-- Filesystem entry: a directory or a file with its full content. -/
inductive FSEntry where
  | dir : FSEntry
  | file : String → FSEntry
deriving DecidableEq

/-- A path is a list of segments relative to the filesystem root. -/
abbrev Path := List String

/-- A filesystem is an association list from paths to entries. -/
abbrev FS := List (Path × FSEntry)

/-- First entry stored at a path, if any. -/
def FS.lookup : FS → Path → Option FSEntry
  | [], _ => none
  | (q, e) :: rest, p => if q == p then some e else FS.lookup rest p

/-- Store an entry at a path, replacing an existing entry at the same path. -/
def FS.set : FS → Path → FSEntry → FS
  | [], p, e => [(p, e)]
  | (q, e0) :: rest, p, e =>
    if q == p then (p, e) :: rest else (q, e0) :: FS.set rest p e

/-- Whether a directory is stored at the path. -/
def FS.isDirAt (fs : FS) (p : Path) : Bool :=
  match FS.lookup fs p with
  | some FSEntry.dir => true
  | _ => false

/-- Whether a plain file is stored at the path. -/
def FS.isFile (fs : FS) (p : Path) : Bool :=
  match FS.lookup fs p with
  | some (FSEntry.file _) => true
  | _ => false

/-- Content of the file stored at the path, if a file is there. -/
def FS.readFile (fs : FS) (p : Path) : Option String :=
  match FS.lookup fs p with
  | some (FSEntry.file c) => some c
  | _ => none

/-- OS-level failures surfaced by the filesystem primitives. -/
inductive OSErr where
  | fileExists : Path → OSErr
  | isADirectory : Path → OSErr
  | notFound : Path → OSErr
deriving DecidableEq

/-- Python exceptions observed by the program: wrapped `RuntimeError`s raised
by the scaffolding primitives (carrying the original OS error as cause),
bare OS errors, and `ValueError` from the registry lookup. -/
inductive GenError where
  | osError : OSErr → GenError
  | runtimeError : String → OSErr → GenError
  | valueError : String → GenError
deriving DecidableEq

deriving instance DecidableEq for Except

/-- A stateful, fallible filesystem computation: Python code that may raise
and that mutates the filesystem.  The filesystem reached at the moment of
the failure is returned alongside the error. -/
abbrev GenM (α : Type) := FS → Except GenError α × FS

/-- Sequence a list of filesystem actions, stopping at the first failure. -/
def genSeq : List (GenM Unit) → GenM Unit
  | [] => fun fs => (Except.ok (), fs)
  | m :: rest => fun fs =>
    match m fs with
    | (Except.ok _, fs1) => genSeq rest fs1
    | (Except.error e, fs1) => (Except.error e, fs1)

/-- Render a path the way error messages display it. -/
def pathToString (p : Path) : String := String.intercalate "/" p

/-- Message text of an OS error, used inside wrapped errors. -/
def osErrMessage : OSErr → String
  | OSErr.fileExists p => "File exists: " ++ pathToString p
  | OSErr.isADirectory p => "Is a directory: " ++ pathToString p
  | OSErr.notFound p => "No such file or directory: " ++ pathToString p

/-- Modelled from the spec: the primitives wrap an underlying OS-level error
into a domain-specific error carrying a human-readable message and the
original cause (spec section 4.1 and section 7; the wrapping code lives in the
missing `src/templates/base.py`, whose tests expect `RuntimeError` matching
the given message prefix). -/
def wrapOS (msg : String) (m : GenM Unit) : GenM Unit := fun fs =>
  match m fs with
  | (Except.error (GenError.osError e), fs1) =>
    (Except.error (GenError.runtimeError (msg ++ ": " ++ osErrMessage e) e), fs1)
  | r => r

/-- All non-empty prefixes of a path, shortest first. -/
def pathPrefixes (p : Path) : List Path :=
  (List.range p.length).map (fun i => p.take (i + 1))

/-- Proper prefixes of a path (the chain of parent directories). -/
def properPrefixes (p : Path) : List Path :=
  (List.range (p.length - 1)).map (fun i => p.take (i + 1))

/-- All parent directories of the path exist as directories. -/
def parentsOk (fs : FS) (p : Path) : Bool :=
  (properPrefixes p).all (fun q => FS.isDirAt fs q)

/-- One `mkdir` step: create the directory unless present; fail if a
non-directory entry occupies the path. -/
def mkdirStep (p : Path) : GenM Unit := fun fs =>
  match FS.lookup fs p with
  | none => (Except.ok (), FS.set fs p FSEntry.dir)
  | some FSEntry.dir => (Except.ok (), fs)
  | some (FSEntry.file _) => (Except.error (GenError.osError (OSErr.fileExists p)), fs)

/-- Run `mkdirStep` along a list of paths, stopping at the first failure. -/
def mkdirSeq : List Path → GenM Unit
  | [] => fun fs => (Except.ok (), fs)
  | q :: rest => fun fs =>
    match mkdirStep q fs with
    | (Except.ok _, fs1) => mkdirSeq rest fs1
    | (Except.error e, fs1) => (Except.error e, fs1)

/-- `pathlib.Path.mkdir(parents=True, exist_ok=True)`: create the directory
and every missing parent, tolerating existing directories. -/
def mkdirP (p : Path) : GenM Unit := mkdirSeq (pathPrefixes p)

/-- `open(path, "w").write(content)`: overwrite or create the file; fail if a
directory occupies the path or a parent directory is missing. -/
def writeFile (p : Path) (content : String) : GenM Unit := fun fs =>
  if parentsOk fs p then
    match FS.lookup fs p with
    | some FSEntry.dir => (Except.error (GenError.osError (OSErr.isADirectory p)), fs)
    | _ => (Except.ok (), FS.set fs p (FSEntry.file content))
  else (Except.error (GenError.osError (OSErr.notFound p)), fs)

/-- `pathlib.Path.touch()`: create an empty file if nothing is at the path;
an existing entry is left untouched. -/
def touchFile (p : Path) : GenM Unit := fun fs =>
  if parentsOk fs p then
    match FS.lookup fs p with
    | some _ => (Except.ok (), fs)
    | none => (Except.ok (), FS.set fs p (FSEntry.file ""))
  else (Except.error (GenError.osError (OSErr.notFound p)), fs)

/-! ## Shared constants (`src/constants.py`) -/

/-- Embedding of `DEV_DEPENDENCIES` from `src/constants.py`. -/
def DEV_DEPENDENCIES : List String :=
  [ "pytest>=7.4.0",
    "pytest-cov>=4.1.0",
    "black>=23.7.0",
    "ruff>=0.0.285",
    "ipykernel>=7.1.0" ]

/-- Embedding of `PYTHON_VERSION` from `src/constants.py`. -/
def PYTHON_VERSION : String := ">=3.10"

/-- Embedding of `COMMON_FOLDERS` from `src/constants.py`. -/
def COMMON_FOLDERS : List String :=
  [ "notebooks",
    "artifacts/wip",
    "artifacts/completed",
    "reports",
    "research",
    "quality",
    "scripts",
    "data",
    "tests" ]

/-! ## Template base contract

The class `ProjectTemplate` lives in `src/templates/base.py`, which is not
among the provided sources; only its callers (the five template classes) and
its unit tests (`tests/test_templates.py`) are.  The record below and the
scaffolding primitives that follow are modelled from the specification
(sections 3, 4.1 and 4.2) and cross-checked against those tests. -/

/-- Modelled from the spec: a recipe instance binds `project_name` and
`project_path` (the `common_folders` attribute is the catalog constant
`COMMON_FOLDERS` and is referenced directly). -/
structure ProjectTemplate where
  project_name : String
  project_path : Path

/-- Keep the first occurrence of every string, dropping later duplicates. -/
def dedupAux (seen : List String) : List String → List String
  | [] => []
  | x :: xs =>
    if seen.contains x then dedupAux seen xs
    else x :: dedupAux (x :: seen) xs

/-- Ordered union: concatenate and drop duplicate later occurrences. -/
def dedupKeepFirst (l : List String) : List String := dedupAux [] l

/-- Split a character list at `/` separators, accumulating the current
segment in reverse. -/
def splitSegsAux : List Char → List Char → List String
  | [], acc => [String.mk acc.reverse]
  | c :: rest, acc =>
    if c == '/' then String.mk acc.reverse :: splitSegsAux rest []
    else splitSegsAux rest (c :: acc)

/-- Split a `/`-separated folder name into path segments (the behaviour of
`str.split("/")` on the folder names the program uses). -/
def splitPath (s : String) : Path := splitSegsAux s.toList []

/-- Folder names (relative, `/`-separated) resolved to full paths under the
project path: the ordered union of the common folders and the additional
folders of the recipe. -/
def fullFolderPaths (t : ProjectTemplate) (additional : List String) : List Path :=
  (dedupKeepFirst (COMMON_FOLDERS ++ additional)).map
    (fun f => t.project_path ++ splitPath f)

/-- Whether some directory in the filesystem lies strictly below the path. -/
def hasSubdirIn (fs : FS) (p : Path) : Bool :=
  fs.any (fun q =>
    (match q.snd with
     | FSEntry.dir => true
     | FSEntry.file _ => false) && p.isPrefixOf q.fst && !(q.fst == p))

/-- Write a zero-byte `.gitkeep` marker into every listed folder that has no
subdirectory, in list order. -/
def gitkeepPass : List Path → GenM Unit
  | [] => fun fs => (Except.ok (), fs)
  | q :: rest => fun fs =>
    if hasSubdirIn fs q then gitkeepPass rest fs
    else
      match touchFile (q ++ [".gitkeep"]) fs with
      | (Except.ok _, fs1) => gitkeepPass rest fs1
      | (Except.error e, fs1) => (Except.error e, fs1)

/-- Modelled from the spec: `create_folder_structure` (missing
`src/templates/base.py`).  Creates the ordered union of `COMMON_FOLDERS` and
the additional folders (duplicates ignored, intermediate directories
included), then writes a zero-byte `.gitkeep` marker into every created
folder that ends up with no subdirectory.  Any OS failure is wrapped into a
`RuntimeError` whose message starts `Failed to create folder structure`
(per `tests/test_templates.py`), preserving the cause. -/
def create_folder_structure (t : ProjectTemplate) (additional : List String) : GenM Unit :=
  wrapOS "Failed to create folder structure"
    (genSeq
      [ mkdirSeq ((fullFolderPaths t additional).flatMap pathPrefixes),
        gitkeepPass (fullFolderPaths t additional) ])

/-- Surround a dependency specifier with double quotes. -/
def quoteDep (d : String) : String := "\"" ++ d ++ "\""

/-- One indented line per dependency specifier, as laid out in the manifest. -/
def depLines (deps : List String) : String :=
  String.join (deps.map (fun d => "    " ++ d ++ ",\n"))

/-- Modelled from the spec: the text of the generated `pyproject.toml`
manifest (missing `src/templates/base.py`).  Declares the project name, the
fixed runtime-version constraint, the archetype-supplied dependency list
verbatim, the fixed development-only dependency group, and the fixed
build-backend declaration (spec sections 4.1 and 6; field shapes
cross-checked against `tests/test_templates.py`). -/
def pyprojectContent (projectName : String) (deps : List String) : String :=
  "[project]\n" ++
  "name = \"" ++ projectName ++ "\"\n" ++
  "version = \"0.1.0\"\n" ++
  "requires-python = \"" ++ PYTHON_VERSION ++ "\"\n" ++
  "dependencies = [\n" ++ depLines deps ++ "]\n" ++
  "\n" ++
  "[dependency-groups]\n" ++
  "dev = [\n" ++ depLines (DEV_DEPENDENCIES.map quoteDep) ++ "]\n" ++
  "\n" ++
  "[build-system]\n" ++
  "requires = [\"hatchling\"]\n" ++
  "build-backend = \"hatchling.build\"\n"

/-- Modelled from the spec: `create_pyproject_toml` (missing
`src/templates/base.py`).  Writes the manifest at the project root; a
collision with an existing directory is wrapped into a `RuntimeError` whose
message starts `Failed to create pyproject.toml` (per
`tests/test_templates.py`), preserving the cause. -/
def create_pyproject_toml (t : ProjectTemplate) (deps : List String) : GenM Unit :=
  wrapOS "Failed to create pyproject.toml"
    (writeFile (t.project_path ++ ["pyproject.toml"]) (pyprojectContent t.project_name deps))

/-- Modelled from the spec: `create_readme` (missing
`src/templates/base.py`).  Writes the given literal content to `README.md`
at the project root verbatim, with no templating of its own. -/
def create_readme (t : ProjectTemplate) (content : String) : GenM Unit :=
  writeFile (t.project_path ++ ["README.md"]) content

/-- Modelled from the spec: the static ignore-pattern list written by
`create_gitignore` (missing `src/templates/base.py`); covers byte-compiled
files, virtual environments, test and coverage caches and editor files, and
contains the entries asserted by `tests/test_templates.py`. -/
def gitignoreContent : String :=
  "__pycache__/\n*.py[cod]\n*.egg-info/\n.venv/\nvenv/\n.pytest_cache/\n.coverage\nhtmlcov/\n.ipynb_checkpoints/\n.vscode/\n.idea/\n.DS_Store\n"

/-- Modelled from the spec: `create_gitignore` (missing
`src/templates/base.py`).  Writes the static ignore list at the project root. -/
def create_gitignore (t : ProjectTemplate) : GenM Unit :=
  writeFile (t.project_path ++ [".gitignore"]) gitignoreContent

/-- Modelled from the spec: the minimal test file written by
`create_basic_test` (missing `src/templates/base.py`); asserts the project
directory exists plus one placeholder assertion, with the definitions
asserted by `tests/test_templates.py`. -/
def basicTestContent : String :=
  "\"\"\"Basic project tests\"\"\"\nimport pytest\nfrom pathlib import Path\n\n\ndef test_project_structure():\n    \"\"\"Project directory exists\"\"\"\n    assert Path(__file__).parent.parent.exists()\n\n\ndef test_placeholder():\n    \"\"\"Placeholder test\"\"\"\n    assert True\n"

/-- Modelled from the spec: `create_basic_test` (missing
`src/templates/base.py`).  Writes `tests/test_basic.py` and the package
marker `tests/__init__.py`; the `tests` folder must already exist. -/
def create_basic_test (t : ProjectTemplate) : GenM Unit :=
  genSeq
    [ writeFile (t.project_path ++ ["tests", "test_basic.py"]) basicTestContent,
      writeFile (t.project_path ++ ["tests", "__init__.py"]) "" ]

/-- Modelled from the spec: the package-marker content written by
`create_src_init` (missing `src/templates/base.py`); a comment referencing
the project name, as asserted by `tests/test_templates.py`. -/
def srcInitContent (projectName : String) : String :=
  "\"\"\"" ++ projectName ++ " package\"\"\"\n"

/-- Modelled from the spec: `create_src_init` (missing
`src/templates/base.py`).  Writes the package marker `src/__init__.py`;
the `src` folder must already exist. -/
def create_src_init (t : ProjectTemplate) : GenM Unit :=
  writeFile (t.project_path ++ ["src", "__init__.py"]) (srcInitContent t.project_name)

/-! ## Archetype starter-file contents

Verbatim bodies of the starter files each template writes, taken from the
template sources (`src/templates/*.py`).  README bodies are f-strings in the
source interpolating only `self.project_name`; they become functions of the
project name. -/

def fastapiReadme (projectName : String) : String :=
  "# " ++ projectName ++ "\n\nA FastAPI web application with database integration and authentication.\n\n## Setup\n\n1. Install dependencies:\n```bash\nuv sync\n```\n\n2. Run the development server:\n```bash\nuv run uvicorn src.main:app --reload\n```\n\n3. Access the API documentation:\n- Swagger UI: http://localhost:8000/docs\n- ReDoc: http://localhost:8000/redoc\n\n## Docker Deployment\n\nBuild and run with Docker:\n```bash\ndocker-compose up --build\n```\n\n## Project Structure\n\n- `src/api/` - API endpoints\n- `src/models/` - Database models\n- `src/services/` - Business logic\n- `src/db/` - Database configuration\n- `tests/` - Test suite\n\n## Testing\n\n```bash\nuv run pytest\n```\n"

def fastapiMainAppContent : String :=
  "from fastapi import FastAPI\nfrom fastapi.middleware.cors import CORSMiddleware\n\napp = FastAPI(\n    title=\"API\",\n    description=\"A FastAPI application\",\n    version=\"0.1.0\"\n)\n\n# CORS\napp.add_middleware(\n    CORSMiddleware,\n    allow_origins=[\"*\"],\n    allow_credentials=True,\n    allow_methods=[\"*\"],\n    allow_headers=[\"*\"],\n)\n\n@app.get(\"/\")\ndef read_root():\n    return \x7b\"message\": \"Welcome to the API\"\x7d\n\n@app.get(\"/health\")\ndef health_check():\n    return \x7b\"status\": \"healthy\"\x7d\n"

def fastapiDockerfileContent : String :=
  "FROM python:3.11-slim\n\nWORKDIR /app\n\n# Install uv\nCOPY --from=ghcr.io/astral-sh/uv:latest /uv /usr/local/bin/uv\n\n# Copy project files\nCOPY pyproject.toml ./\nCOPY src ./src\n\n# Install dependencies\nRUN uv sync --frozen\n\n# Expose port\nEXPOSE 8000\n\n# Run the application\nCMD [\"uv\", \"run\", \"uvicorn\", \"src.main:app\", \"--host\", \"0.0.0.0\", \"--port\", \"8000\"]\n"

def fastapiDockerComposeContent : String :=
  "version: '3.8'\n\nservices:\n  api:\n    build: .\n    ports:\n      - \"8000:8000\"\n    environment:\n      - DATABASE_URL=postgresql://user:password@db:5432/dbname\n    depends_on:\n      - db\n    volumes:\n      - ./src:/app/src\n    \n  db:\n    image: postgres:15-alpine\n    environment:\n      - POSTGRES_USER=user\n      - POSTGRES_PASSWORD=password\n      - POSTGRES_DB=dbname\n    ports:\n      - \"5432:5432\"\n    volumes:\n      - postgres_data:/var/lib/postgresql/data\n\nvolumes:\n  postgres_data:\n"

def simpleReadme (projectName : String) : String :=
  "# " ++ projectName ++ "\n\nA simple Python project boilerplate with testing infrastructure.\n\n## Setup\n\n1. Install dependencies:\n```bash\nuv sync\n```\n\n2. Run the project:\n```bash\nuv run python -m src.main\n```\n\n## Project Structure\n\n- `src/main.py` - Main entry point\n- `tests/` - Test files\n- Common project folders for organization\n\n## Testing\n\nRun tests with:\n```bash\nuv run pytest\n```\n\n## Development\n\nThis is a minimal boilerplate project. Add your code to `src/main.py` and tests to `tests/`.\n"

def simpleMainPyContent : String :=
  "\"\"\"Main entry point for the project\"\"\"\n\n\ndef main():\n    \"\"\"Main function\"\"\"\n    print(\"Hello, World!\")\n\n\nif __name__ == \"__main__\":\n    main()\n"

def automationReadme (projectName : String) : String :=
  "# " ++ projectName ++ "\n\nA Python automation and scripting project for repetitive tasks.\n\n## Setup\n\n1. Install dependencies:\n```bash\nuv sync\n```\n\n2. Run the CLI:\n```bash\nuv run python -m src.cli --help\n```\n\n## Project Structure\n\n- `src/tasks/` - Individual automation tasks\n- `scripts/` - Standalone scripts\n- `logs/` - Task execution logs\n- `data/` - Input/output data\n\n## Usage\n\n### Run a specific task:\n```bash\nuv run python -m src.cli run task-name\n```\n\n### List available tasks:\n```bash\nuv run python -m src.cli list\n```\n\n### Schedule a task:\n```bash\nuv run python -m src.cli schedule task-name --interval 3600\n```\n\n## Creating New Tasks\n\nAdd new tasks in `src/tasks/` by subclassing `Task`.\n\n## Testing\n\n```bash\nuv run pytest\n```\n"

def automationCliContent : String :=
  "#!/usr/bin/env python3\n\"\"\"Main CLI interface for automation tasks\"\"\"\nimport click\nfrom pathlib import Path\nimport importlib\nimport sys\n\n@click.group()\ndef cli():\n    \"\"\"Task automation CLI\"\"\"\n    pass\n\n@cli.command()\ndef list():\n    \"\"\"List all available tasks\"\"\"\n    tasks_dir = Path(__file__).parent / \"tasks\"\n    click.echo(\"Available tasks:\")\n    for task_file in tasks_dir.glob(\"*.py\"):\n        if task_file.name != \"__init__.py\":\n            click.echo(f\"  - \x7btask_file.stem\x7d\")\n\n@cli.command()\n@click.argument('task_name')\n@click.option('--dry-run', is_flag=True, help='Simulate without executing')\ndef run(task_name, dry_run):\n    \"\"\"Run a specific task\"\"\"\n    try:\n        module = importlib.import_module(f\"src.tasks.\x7btask_name\x7d\")\n        if hasattr(module, 'run'):\n            click.echo(f\"Running task: \x7btask_name\x7d\")\n            if dry_run:\n                click.echo(\"[DRY RUN MODE]\")\n            module.run(dry_run=dry_run)\n            click.echo(\"✓ Task completed\")\n        else:\n            click.echo(f\"Error: Task '\x7btask_name\x7d' has no run() function\", err=True)\n    except ModuleNotFoundError:\n        click.echo(f\"Error: Task '\x7btask_name\x7d' not found\", err=True)\n\n@cli.command()\n@click.argument('task_name')\n@click.option('--interval', default=3600, help='Interval in seconds')\ndef schedule(task_name, interval):\n    \"\"\"Schedule a task to run periodically\"\"\"\n    click.echo(f\"Scheduling '\x7btask_name\x7d' every \x7binterval\x7d seconds\")\n    # TODO: Implement scheduling logic\n    click.echo(\"Note: Scheduling not yet implemented\")\n\nif __name__ == '__main__':\n    cli()\n"

def automationOrganizerContent : String :=
  "\"\"\"File organization task\"\"\"\nfrom pathlib import Path\nimport shutil\n\n\ndef run(dry_run=False):\n    \"\"\"Organize files by extension\"\"\"\n    source_dir = Path(\"data\")\n    \n    if not source_dir.exists():\n        print(f\"Directory \x7bsource_dir\x7d not found\")\n        return\n    \n    extensions = \x7b\x7d\n    for file in source_dir.glob(\"*\"):\n        if file.is_file():\n            ext = file.suffix or \"no_extension\"\n            if ext not in extensions:\n                extensions[ext] = []\n            extensions[ext].append(file)\n    \n    for ext, files in extensions.items():\n        target_dir = source_dir / ext.lstrip(\".\")\n        print(f\"Moving \x7blen(files)\x7d \x7bext\x7d files to \x7btarget_dir\x7d\")\n        \n        if not dry_run:\n            target_dir.mkdir(exist_ok=True)\n            for file in files:\n                shutil.move(str(file), str(target_dir / file.name))\n"

def automationScraperContent : String :=
  "\"\"\"Web scraping task example\"\"\"\nimport requests\nfrom bs4 import BeautifulSoup\n\n\ndef run(dry_run=False):\n    \"\"\"Scrape a website (example)\"\"\"\n    url = \"https://example.com\"\n    \n    print(f\"Scraping: \x7burl\x7d\")\n    \n    if dry_run:\n        print(\"[DRY RUN] Would fetch and parse the page\")\n        return\n    \n    try:\n        response = requests.get(url, timeout=10)\n        response.raise_for_status()\n        \n        soup = BeautifulSoup(response.content, 'html.parser')\n        title = soup.find('title')\n        \n        print(f\"Page title: \x7btitle.string if title else 'No title found'\x7d\")\n    except Exception as e:\n        print(f\"Error: \x7be\x7d\")\n"

def ragReadme (projectName : String) : String :=
  "# " ++ projectName ++ "\n\nA RAG (Retrieval-Augmented Generation) agent built with LangChain and Streamlit.\n\n## Setup\n\n1. Install dependencies using uv:\n```bash\nuv sync\n```\n\n2. Copy `.env.example` to `.env` and configure your settings\n\n3. Run the Streamlit app:\n```bash\nuv run streamlit run streamlit_app/app.py\n```\n\n## Project Structure\n\n- `src/agents/` - Agent implementations\n- `src/vectorstore/` - Vector database configuration\n- `streamlit_app/` - Streamlit frontend\n- `scripts/` - Utility scripts including data generation\n- `notebooks/` - Jupyter notebooks for experimentation\n- `data/` - Data storage\n- `tests/` - Test suite\n\n## Testing\n\nRun tests with:\n```bash\nuv run pytest\n```\n\n## Architecture\n\nThis RAG agent uses:\n- **LangChain** for agent orchestration\n- **Qdrant** for vector storage\n- **Ollama** for local LLM inference\n- **Streamlit** for the web interface\n"

def ragStreamlitAppContent : String :=
  "import streamlit as st\nfrom pathlib import Path\nimport sys\n\n# Add src to path\nsys.path.insert(0, str(Path(__file__).parent.parent / \"src\"))\n\nst.set_page_config(page_title=\"RAG Agent\", page_icon=\"🤖\", layout=\"wide\")\n\n# Sidebar\nwith st.sidebar:\n    st.title(\"🤖 RAG Agent\")\n    st.markdown(\"---\")\n    \n    # Configuration options\n    st.subheader(\"Configuration\")\n    model = st.selectbox(\"Model\", [\"llama2\", \"mistral\", \"codellama\"])\n    temperature = st.slider(\"Temperature\", 0.0, 1.0, 0.7)\n    \n    st.markdown(\"---\")\n    if st.button(\"Clear Chat History\"):\n        st.session_state.messages = []\n        st.rerun()\n\n# Initialize chat history\nif \"messages\" not in st.session_state:\n    st.session_state.messages = []\n\n# Display chat messages\nfor message in st.session_state.messages:\n    with st.chat_message(message[\"role\"]):\n        st.markdown(message[\"content\"])\n\n# Chat input\nif prompt := st.chat_input(\"Ask me anything...\"):\n    # Add user message\n    st.session_state.messages.append(\x7b\"role\": \"user\", \"content\": prompt\x7d)\n    with st.chat_message(\"user\"):\n        st.markdown(prompt)\n    \n    # Generate response (placeholder)\n    with st.chat_message(\"assistant\"):\n        response = f\"Echo: \x7bprompt\x7d\"  # Replace with actual agent logic\n        st.markdown(response)\n    \n    st.session_state.messages.append(\x7b\"role\": \"assistant\", \"content\": response\x7d)\n"

def ragAgentModuleContent : String :=
  "\"\"\"RAG Agent implementation\"\"\"\nfrom langchain.chains import RetrievalQA\nfrom langchain.vectorstores import Qdrant\nfrom typing import Optional\n\n\nclass RAGAgent:\n    \"\"\"Main RAG Agent class\"\"\"\n    \n    def __init__(self, model_name: str = \"llama2\"):\n        self.model_name = model_name\n        self.vectorstore: Optional[Qdrant] = None\n        \n    def initialize_vectorstore(self, collection_name: str):\n        \"\"\"Initialize Qdrant vector store\"\"\"\n        # TODO: Implement Qdrant initialization\n        pass\n    \n    def query(self, question: str) -> str:\n        \"\"\"Query the RAG agent\"\"\"\n        # TODO: Implement query logic\n        return f\"Response to: \x7bquestion\x7d\"\n"

def ragDataGenContent : String :=
  "#!/usr/bin/env python3\n\"\"\"\nData generation script for creating synthetic data for the RAG system\n\"\"\"\nimport json\nfrom pathlib import Path\n\n\ndef generate_sample_documents(num_docs: int = 10):\n    \"\"\"Generate sample documents for testing\"\"\"\n    documents = []\n    \n    for i in range(num_docs):\n        doc = \x7b\n            \"id\": f\"doc_\x7bi\x7d\",\n            \"content\": f\"This is sample document \x7bi\x7d with some content.\",\n            \"metadata\": \x7b\n                \"source\": \"generated\",\n                \"index\": i\n            \x7d\n        \x7d\n        documents.append(doc)\n    \n    return documents\n\n\ndef main():\n    \"\"\"Main function\"\"\"\n    output_dir = Path(__file__).parent.parent / \"data\"\n    output_dir.mkdir(exist_ok=True)\n    \n    documents = generate_sample_documents()\n    \n    output_file = output_dir / \"sample_documents.json\"\n    with open(output_file, \"w\") as f:\n        json.dump(documents, f, indent=2)\n    \n    print(f\"Generated \x7blen(documents)\x7d documents -> \x7boutput_file\x7d\")\n\n\nif __name__ == \"__main__\":\n    main()\n"

def ragEnvExampleContent : String :=
  "# Qdrant Configuration\nQDRANT_URL=http://localhost:6333\nQDRANT_API_KEY=\n\n# Ollama Configuration\nOLLAMA_BASE_URL=http://localhost:11434\n\n# Model Settings\nDEFAULT_MODEL=llama2\nEMBEDDING_MODEL=all-MiniLM-L6-v2\n"

def dsReadme (projectName : String) : String :=
  "# " ++ projectName ++ "\n\nA Data Science and Machine Learning project with end-to-end pipeline.\n\n## Setup\n\n1. Install dependencies:\n```bash\nuv sync\n```\n\n2. Launch Jupyter Lab:\n```bash\nuv run jupyter lab\n```\n\n## Project Structure\n\n- `src/data/` - Data loading and processing\n- `src/features/` - Feature engineering\n- `src/models/` - Model training and evaluation\n- `models/` - Saved model artifacts\n- `notebooks/` - Jupyter notebooks for exploration\n- `data/` - Data storage (raw and processed)\n\n## Workflow\n\n1. **Data Ingestion**: Load and explore data in notebooks\n2. **Feature Engineering**: Create features using scripts in `src/features/`\n3. **Model Training**: Train models using `src/models/train.py`\n4. **Deployment**: Serve model via FastAPI\n\n## Model API\n\nStart the model serving API:\n```bash\nuv run python src/models/serve.py\n```\n\n## Testing\n\n```bash\nuv run pytest\n```\n"

def dsLoaderContent : String :=
  "\"\"\"Data loading and processing utilities\"\"\"\nimport pandas as pd\nfrom pathlib import Path\n\n\ndef load_data(filepath: str) -> pd.DataFrame:\n    \"\"\"Load data from file\"\"\"\n    path = Path(filepath)\n    \n    if path.suffix == '.csv':\n        return pd.read_csv(filepath)\n    elif path.suffix in ['.xlsx', '.xls']:\n        return pd.read_excel(filepath)\n    else:\n        raise ValueError(f\"Unsupported file type: \x7bpath.suffix\x7d\")\n\n\ndef preprocess_data(df: pd.DataFrame) -> pd.DataFrame:\n    \"\"\"Basic preprocessing\"\"\"\n    # Remove duplicates\n    df = df.drop_duplicates()\n    \n    # Handle missing values (placeholder)\n    df = df.fillna(df.mean(numeric_only=True))\n    \n    return df\n"

def dsTrainContent : String :=
  "\"\"\"Model training script\"\"\"\nfrom sklearn.ensemble import RandomForestClassifier\nfrom sklearn.model_selection import train_test_split\nimport joblib\nfrom pathlib import Path\n\n\ndef train_model(X, y, model_path: str = \"models/model.joblib\"):\n    \"\"\"Train a model and save it\"\"\"\n    X_train, X_test, y_train, y_test = train_test_split(X, y, test_size=0.2)\n    \n    model = RandomForestClassifier(n_estimators=100, random_state=42)\n    model.fit(X_train, y_train)\n    \n    score = model.score(X_test, y_test)\n    print(f\"Model accuracy: \x7bscore:.4f\x7d\")\n    \n    # Save model\n    Path(model_path).parent.mkdir(exist_ok=True)\n    joblib.dump(model, model_path)\n    print(f\"Model saved to \x7bmodel_path\x7d\")\n    \n    return model\n\n\nif __name__ == \"__main__\":\n    # Example usage\n    from sklearn.datasets import make_classification\n    X, y = make_classification(n_samples=1000, n_features=20, random_state=42)\n    train_model(X, y)\n"

def dsServeContent : String :=
  "\"\"\"Model serving API\"\"\"\nfrom fastapi import FastAPI\nfrom pydantic import BaseModel\nimport joblib\nfrom pathlib import Path\n\napp = FastAPI(title=\"ML Model API\")\n\n# Load model (placeholder)\nMODEL_PATH = Path(__file__).parent.parent.parent / \"models\" / \"model.joblib\"\nmodel = None\n\n@app.on_event(\"startup\")\ndef load_model():\n    global model\n    if MODEL_PATH.exists():\n        model = joblib.load(MODEL_PATH)\n    else:\n        print(\"Model not found. Train a model first.\")\n\nclass PredictionInput(BaseModel):\n    features: list\n\nclass PredictionOutput(BaseModel):\n    prediction: int\n    probability: float\n\n@app.post(\"/predict\", response_model=PredictionOutput)\ndef predict(input_data: PredictionInput):\n    if model is None:\n        return \x7b\"error\": \"Model not loaded\"\x7d\n    \n    prediction = model.predict([input_data.features])[0]\n    probability = float(max(model.predict_proba([input_data.features])[0]))\n    \n    return PredictionOutput(prediction=int(prediction), probability=probability)\n\n@app.get(\"/health\")\ndef health():\n    return \x7b\"status\": \"healthy\", \"model_loaded\": model is not None\x7d\n\nif __name__ == \"__main__\":\n    import uvicorn\n    uvicorn.run(app, host=\"0.0.0.0\", port=8000)\n"

/-! ## The five archetype recipes (`src/templates/*.py`)

Each `generate` mirrors its Python override line by line: folders, manifest,
archetype-specific files, package marker, readme, ignore file, basic test. -/

/-- Dependency list of `FastAPITemplate.generate` (`src/templates/fastapi.py`). -/
def fastapiDeps : List String :=
  [ "\"fastapi>=0.104.0\"",
    "\"uvicorn[standard]>=0.24.0\"",
    "\"sqlalchemy>=2.0.0\"",
    "\"alembic>=1.12.0\"",
    "\"pydantic>=2.4.0\"",
    "\"pydantic-settings>=2.0.0\"",
    "\"python-jose[cryptography]>=3.3.0\"",
    "\"passlib[bcrypt]>=1.7.4\"",
    "\"python-multipart>=0.0.6\"" ]

/-- Embedding of `FastAPITemplate._create_main_app`. -/
def fastapiCreateMainApp (t : ProjectTemplate) : GenM Unit :=
  genSeq
    [ writeFile (t.project_path ++ ["src", "main.py"]) fastapiMainAppContent,
      touchFile (t.project_path ++ ["src", "api", "__init__.py"]),
      touchFile (t.project_path ++ ["src", "models", "__init__.py"]),
      touchFile (t.project_path ++ ["src", "services", "__init__.py"]),
      touchFile (t.project_path ++ ["src", "db", "__init__.py"]) ]

/-- Embedding of `FastAPITemplate.generate` (`src/templates/fastapi.py`). -/
def fastapiGenerate (t : ProjectTemplate) : GenM Unit :=
  genSeq
    [ create_folder_structure t ["src", "src/api", "src/models", "src/services", "src/db"],
      create_pyproject_toml t fastapiDeps,
      fastapiCreateMainApp t,
      writeFile (t.project_path ++ ["Dockerfile"]) fastapiDockerfileContent,
      writeFile (t.project_path ++ ["docker-compose.yml"]) fastapiDockerComposeContent,
      create_src_init t,
      create_readme t (fastapiReadme t.project_name),
      create_gitignore t,
      create_basic_test t ]

/-- Embedding of `SimpleBoilerplateTemplate.generate`
(`src/templates/simple_boilerplate.py`); the archetype dependency list it
passes to `create_pyproject_toml` is empty. -/
def simpleBoilerplateGenerate (t : ProjectTemplate) : GenM Unit :=
  genSeq
    [ create_folder_structure t ["src"],
      create_pyproject_toml t [],
      writeFile (t.project_path ++ ["src", "main.py"]) simpleMainPyContent,
      create_src_init t,
      create_readme t (simpleReadme t.project_name),
      create_gitignore t,
      create_basic_test t ]

/-- Dependency list of `AutomationTemplate.generate` (`src/templates/automation.py`). -/
def automationDeps : List String :=
  [ "\"click>=8.1.0\"",
    "\"requests>=2.31.0\"",
    "\"beautifulsoup4>=4.12.0\"",
    "\"python-dotenv>=1.0.0\"",
    "\"schedule>=1.2.0\"",
    "\"pyyaml>=6.0\"" ]

/-- Embedding of `AutomationTemplate._create_example_tasks`. -/
def automationCreateExampleTasks (t : ProjectTemplate) : GenM Unit :=
  genSeq
    [ writeFile (t.project_path ++ ["src", "tasks", "file_organizer.py"]) automationOrganizerContent,
      writeFile (t.project_path ++ ["src", "tasks", "web_scraper.py"]) automationScraperContent,
      touchFile (t.project_path ++ ["src", "tasks", "__init__.py"]) ]

/-- Embedding of `AutomationTemplate.generate` (`src/templates/automation.py`). -/
def automationGenerate (t : ProjectTemplate) : GenM Unit :=
  genSeq
    [ create_folder_structure t ["src", "src/tasks", "logs"],
      create_pyproject_toml t automationDeps,
      writeFile (t.project_path ++ ["src", "cli.py"]) automationCliContent,
      automationCreateExampleTasks t,
      create_src_init t,
      create_readme t (automationReadme t.project_name),
      create_gitignore t,
      create_basic_test t ]

/-- Dependency list of `RAGAgentTemplate.generate` (`src/templates/rag_agent.py`). -/
def ragAgentDeps : List String :=
  [ "\"langchain>=0.1.0\"",
    "\"langchain-community>=0.0.20\"",
    "\"streamlit>=1.29.0\"",
    "\"qdrant-client>=1.7.0\"",
    "\"ollama>=0.1.0\"",
    "\"python-dotenv>=1.0.0\"",
    "\"sentence-transformers>=2.2.0\"" ]

/-- Embedding of `RAGAgentTemplate._create_agent_module`. -/
def ragCreateAgentModule (t : ProjectTemplate) : GenM Unit :=
  genSeq
    [ writeFile (t.project_path ++ ["src", "agents", "rag_agent.py"]) ragAgentModuleContent,
      touchFile (t.project_path ++ ["src", "agents", "__init__.py"]) ]

/-- Embedding of `RAGAgentTemplate.generate` (`src/templates/rag_agent.py`). -/
def ragAgentGenerate (t : ProjectTemplate) : GenM Unit :=
  genSeq
    [ create_folder_structure t ["src", "src/agents", "src/vectorstore", "streamlit_app"],
      create_pyproject_toml t ragAgentDeps,
      writeFile (t.project_path ++ ["streamlit_app", "app.py"]) ragStreamlitAppContent,
      ragCreateAgentModule t,
      writeFile (t.project_path ++ ["scripts", "generate_data.py"]) ragDataGenContent,
      writeFile (t.project_path ++ [".env.example"]) ragEnvExampleContent,
      create_src_init t,
      create_readme t (ragReadme t.project_name),
      create_gitignore t,
      create_basic_test t ]

/-- Dependency list of `DataScienceTemplate.generate` (`src/templates/data_science.py`). -/
def dataScienceDeps : List String :=
  [ "\"numpy>=1.24.0\"",
    "\"pandas>=2.0.0\"",
    "\"scikit-learn>=1.3.0\"",
    "\"matplotlib>=3.7.0\"",
    "\"seaborn>=0.12.0\"",
    "\"jupyter>=1.0.0\"",
    "\"jupyterlab>=4.0.0\"",
    "\"fastapi>=0.104.0\"",
    "\"uvicorn[standard]>=0.24.0\"",
    "\"joblib>=1.3.0\"" ]

/-- Embedding of `DataScienceTemplate._create_data_pipeline`. -/
def dsCreateDataPipeline (t : ProjectTemplate) : GenM Unit :=
  genSeq
    [ writeFile (t.project_path ++ ["src", "data", "loader.py"]) dsLoaderContent,
      touchFile (t.project_path ++ ["src", "data", "__init__.py"]),
      touchFile (t.project_path ++ ["src", "features", "__init__.py"]),
      touchFile (t.project_path ++ ["src", "models", "__init__.py"]) ]

/-- Embedding of `DataScienceTemplate.generate` (`src/templates/data_science.py`). -/
def dataScienceGenerate (t : ProjectTemplate) : GenM Unit :=
  genSeq
    [ create_folder_structure t
        ["src", "src/data", "src/features", "src/models", "models", "data/raw", "data/processed"],
      create_pyproject_toml t dataScienceDeps,
      dsCreateDataPipeline t,
      writeFile (t.project_path ++ ["src", "models", "train.py"]) dsTrainContent,
      writeFile (t.project_path ++ ["src", "models", "serve.py"]) dsServeContent,
      create_src_init t,
      create_readme t (dsReadme t.project_name),
      create_gitignore t,
      create_basic_test t ]

/-! ## Registry (`src/templates/__init__.py`) -/

/-- The five concrete template classes, as a closed set of tags. -/
inductive TemplateKind where
  | ragAgent : TemplateKind
  | fastapiWeb : TemplateKind
  | dataScience : TemplateKind
  | automation : TemplateKind
  | simpleBoilerplate : TemplateKind
deriving DecidableEq

/-- Class attribute `name` of each template class. -/
def TemplateKind.name : TemplateKind → String
  | TemplateKind.ragAgent => "RAG Agent"
  | TemplateKind.fastapiWeb => "FastAPI Web API"
  | TemplateKind.dataScience => "Data Science/ML"
  | TemplateKind.automation => "Task Automation"
  | TemplateKind.simpleBoilerplate => "Simple Py Boilerplate"

/-- Class attribute `description` of each template class. -/
def TemplateKind.description : TemplateKind → String
  | TemplateKind.ragAgent => "LangChain-based RAG agent with Streamlit UI, Qdrant, and Ollama"
  | TemplateKind.fastapiWeb => "REST API with FastAPI, database integration, and Docker support"
  | TemplateKind.dataScience => "ML project with scikit-learn, pandas, and model serving API"
  | TemplateKind.automation => "Scripting and automation with CLI interface"
  | TemplateKind.simpleBoilerplate => "Minimal Python project with testing infrastructure and main.py"

/-- Method dispatch for `generate` over the closed set of template classes. -/
def TemplateKind.generate : TemplateKind → ProjectTemplate → GenM Unit
  | TemplateKind.ragAgent => ragAgentGenerate
  | TemplateKind.fastapiWeb => fastapiGenerate
  | TemplateKind.dataScience => dataScienceGenerate
  | TemplateKind.automation => automationGenerate
  | TemplateKind.simpleBoilerplate => simpleBoilerplateGenerate

/-- Embedding of `TEMPLATE_REGISTRY` from `src/templates/__init__.py`; a
Python dict literal, whose iteration order is its declaration order. -/
def TEMPLATE_REGISTRY : List (String × TemplateKind) :=
  [ ("1", TemplateKind.ragAgent),
    ("2", TemplateKind.fastapiWeb),
    ("3", TemplateKind.dataScience),
    ("4", TemplateKind.automation),
    ("5", TemplateKind.simpleBoilerplate) ]

/-- One record of `get_template_list`: key, class name, class description. -/
structure TemplateInfo where
  key : String
  name : String
  description : String
deriving DecidableEq

/-- Embedding of `get_template_list` from `src/templates/__init__.py`. -/
def get_template_list : List TemplateInfo :=
  TEMPLATE_REGISTRY.map (fun p => TemplateInfo.mk p.fst p.snd.name p.snd.description)

/-- Embedding of `get_template_class` from `src/templates/__init__.py`:
return the class registered under the key, or raise
`ValueError(f"Unknown template: ...")` when the key is absent. -/
def get_template_class (templateKey : String) : Except GenError TemplateKind :=
  match TEMPLATE_REGISTRY.find? (fun p => p.fst == templateKey) with
  | some p => Except.ok p.snd
  | none => Except.error (GenError.valueError ("Unknown template: " ++ templateKey))

/-! ## CLI flow (`src/cli.py`) -/

/-- Rich `Prompt.ask` with a `choices` list and a `default`: consume console
inputs until one is among the choices; an empty input (`none`) yields the
default.  Returns `none` when the input stream runs out with no accepted
answer (an uncompleted run).  Modelled from the documented behaviour of the
`rich` library, an external collaborator of the engine. -/
def promptWithChoices (choices : List String) (dflt : String) :
    List (Option String) → Option String
  | [] => none
  | none :: _ => some dflt
  | some s :: rest =>
    if choices.contains s then some s else promptWithChoices choices dflt rest

/-- Embedding of `get_project_type` from `src/cli.py`: prompt restricted to
the registry keys with default `"1"`. -/
def get_project_type (inputs : List (Option String)) : Option String :=
  promptWithChoices (TEMPLATE_REGISTRY.map Prod.fst) "1" inputs

/-- Answers the interactive prompts supply to one `run_cli` run: the
project-type answer, the project-name answer, the parsed project path, and
the overwrite confirmation. -/
structure CliAnswers where
  projectType : String
  projectName : String
  projectPathAnswer : Path
  overwriteAnswer : Bool

/-- Observable outcome of a `run_cli` run. -/
inductive CliOutcome where
  | nameError : CliOutcome
  | cancelled : CliOutcome
  | uncaught : GenError → CliOutcome
  | creationError : GenError → CliOutcome
  | success : CliOutcome
deriving DecidableEq

/-- Embedding of `run_cli` from `src/cli.py`, with the prompts replaced by
the supplied answers.  The flow follows the source order: validate the
project name (returning an error display and touching nothing when it is
invalid), check for a pre-existing target and the overwrite confirmation,
create the project directory with `mkdir(parents=True, exist_ok=True)`
(outside any handler, so a failure there escapes `run_cli`), then, inside
the `try` block, resolve the template key and run `generate`, converting any
exception into an error display. -/
def run_cli (a : CliAnswers) (fs : FS) : CliOutcome × FS :=
  if !(validate_project_name a.projectName) then (CliOutcome.nameError, fs)
  else if (FS.lookup fs a.projectPathAnswer).isSome && !a.overwriteAnswer then
    (CliOutcome.cancelled, fs)
  else
    match mkdirP a.projectPathAnswer fs with
    | (Except.error e, fs1) => (CliOutcome.uncaught e, fs1)
    | (Except.ok _, fs1) =>
      match get_template_class a.projectType with
      | Except.error e => (CliOutcome.creationError e, fs1)
      | Except.ok kind =>
        match TemplateKind.generate kind (ProjectTemplate.mk a.projectName a.projectPathAnswer) fs1 with
        | (Except.ok _, fs2) => (CliOutcome.success, fs2)
        | (Except.error e, fs2) => (CliOutcome.creationError e, fs2)

/-! ## Concrete scenario runs used by end-to-end claims -/

/-- End-to-end scenario of spec section 8: the Web API service archetype
generated with name `demo` into an empty writable directory `proj`. -/
def fastapiDemoRun : Except GenError Unit × FS :=
  fastapiGenerate (ProjectTemplate.mk "demo" ["proj"]) [(["proj"], FSEntry.dir)]

/-- End-to-end scenario of spec section 8: the minimal boilerplate archetype
generated with name `demo` into an empty writable directory `proj`. -/
def simpleDemoRun : Except GenError Unit × FS :=
  simpleBoilerplateGenerate (ProjectTemplate.mk "demo" ["proj"]) [(["proj"], FSEntry.dir)]

/-! ## Helper lemmas -/

set_option maxRecDepth 10000

/-- Characters surviving the underscore/hyphen strip are alphanumeric exactly
when every character of the original string is in the allowed set. -/
theorem all_filter_keep (l : List Char) :
    (l.filter keepChar).all pyIsAlnumChar = l.all allowedChar := by
  induction l with
  | nil => rfl
  | cons c l ih =>
    cases h1 : c == '_' with
    | true =>
      have hk : keepChar c = false := by simp [keepChar, h1]
      have ha : allowedChar c = true := by simp [allowedChar, h1]
      simp [List.filter_cons, hk, ha, ih]
    | false =>
      cases h2 : c == '-' with
      | true =>
        have hk : keepChar c = false := by simp [keepChar, h2]
        have ha : allowedChar c = true := by simp [allowedChar, h2]
        simp [List.filter_cons, hk, ha, ih]
      | false =>
        have hk : keepChar c = true := by simp [keepChar, h1, h2]
        simp [List.filter_cons, hk, List.all_cons, ih, allowedChar, pyIsAlnumChar, h1, h2]

/-- Looking up a path right after storing an entry there yields that entry. -/
theorem FS.lookup_set (fs : FS) (p : Path) (e : FSEntry) :
    FS.lookup (FS.set fs p e) p = some e := by
  induction fs with
  | nil => simp [FS.set, FS.lookup]
  | cons hd t ih =>
    obtain ⟨q, e0⟩ := hd
    cases hq : q == p with
    | true => simp [FS.set, FS.lookup, hq]
    | false => simp [FS.set, FS.lookup, hq, ih]

/-- Storing at an absent path appends the new entry at the back. -/
theorem FS.set_of_lookup_none (fs : FS) (p : Path) (e : FSEntry)
    (h : FS.lookup fs p = none) : FS.set fs p e = fs ++ [(p, e)] := by
  induction fs with
  | nil => simp [FS.set]
  | cons hd t ih =>
    obtain ⟨q, e0⟩ := hd
    cases hq : q == p with
    | true => simp [FS.lookup, hq] at h
    | false =>
      simp only [FS.lookup, hq, if_neg] at h
      simp [FS.set, hq, ih h]

/-- A run of `mkdir` steps only adds directory entries: every original entry
survives, and every entry of the result is an original entry or a directory. -/
theorem mkdirSeq_preserves (l : List Path) (fs fs1 : FS) (r : Except GenError Unit)
    (h : mkdirSeq l fs = (r, fs1)) :
    (∀ x, x ∈ fs → x ∈ fs1) ∧ (∀ x, x ∈ fs1 → x ∈ fs ∨ x.snd = FSEntry.dir) := by
  induction l generalizing fs with
  | nil =>
    simp only [mkdirSeq] at h
    injection h with h1 h2
    subst h2
    exact ⟨fun x hx => hx, fun x hx => Or.inl hx⟩
  | cons q rest ih =>
    simp only [mkdirSeq, mkdirStep] at h
    cases hl : FS.lookup fs q with
    | none =>
      rw [hl] at h
      have hset := FS.set_of_lookup_none fs q FSEntry.dir hl
      obtain ⟨ha, hb⟩ := ih (FS.set fs q FSEntry.dir) h
      refine ⟨fun x hx => ha x ?_, fun x hx => ?_⟩
      · rw [hset]; exact List.mem_append_left _ hx
      · rcases hb x hx with h1 | h1
        · rw [hset] at h1
          rcases List.mem_append.mp h1 with h2 | h2
          · exact Or.inl h2
          · simp only [List.mem_singleton] at h2
            subst h2
            exact Or.inr rfl
        · exact Or.inr h1
    | some e =>
      cases e with
      | dir =>
        rw [hl] at h
        exact ih fs h
      | file c =>
        rw [hl] at h
        injection h with h1 h2
        subst h2
        exact ⟨fun x hx => hx, fun x hx => Or.inl hx⟩

/-- A completed prompt with a choices list answers the default or one of the choices. -/
theorem promptWithChoices_spec (choices : List String) (dflt : String)
    (inputs : List (Option String)) (k : String)
    (h : promptWithChoices choices dflt inputs = some k) :
    k = dflt ∨ choices.contains k = true := by
  induction inputs with
  | nil => simp [promptWithChoices] at h
  | cons i rest ih =>
    cases i with
    | none =>
      simp only [promptWithChoices, Option.some.injEq] at h
      exact Or.inl h.symm
    | some s =>
      simp only [promptWithChoices] at h
      cases hc : choices.contains s with
      | false =>
        rw [hc] at h
        simp only [Bool.false_eq_true, if_false] at h
        exact ih h
      | true =>
        rw [hc] at h
        simp only [if_true, Option.some.injEq] at h
        subst h
        exact Or.inr hc

/-! ## The claims -/

/-- C1 counterexample: the string consisting of a single hyphen is non-empty
and drawn entirely from `[A-Za-z0-9_-]`, yet `validate_project_name`
rejects it (stripping underscores and hyphens leaves the empty string, and
Python `"".isalnum()` is false). -/
theorem c1_counterexample :
    ("-" ≠ "" ∧ "-".toList.all allowedChar = true) ∧ validate_project_name "-" = false := by
  decide

/-- C1 (amended): restricted to strings of ASCII characters — the fragment
on which the `isalnum` model is faithful to CPython — `validate_project_name`
accepts exactly the strings that still have at least one character after all
underscores and hyphens are removed and whose every character is in
`[A-Za-z0-9_-]`; in particular the empty string and strings consisting only
of underscores and hyphens are rejected.  Outside ASCII the program follows
CPython's Unicode `str.isalnum`, which this model does not cover. -/
theorem c1_amended_validate (s : String) (_hascii : ∀ c ∈ s.toList, c.toNat < 128) :
    validate_project_name s =
      (!(s.toList.filter keepChar).isEmpty && s.toList.all allowedChar) := by
  unfold validate_project_name pyIsAlnumList
  rw [all_filter_keep]

/-- C1 witness: a concrete ASCII string satisfying the hypothesis, on which
the validator agrees with the amended characterization. -/
theorem c1_amended_validate_witness :
    (∀ c ∈ "my-project_1".toList, c.toNat < 128) ∧
    validate_project_name "my-project_1" =
      (!("my-project_1".toList.filter keepChar).isEmpty &&
        "my-project_1".toList.all allowedChar) :=
  ⟨by decide, c1_amended_validate "my-project_1" (by decide)⟩

/-- C3: looking up any key absent from the registry fails with the
`Unknown template` error carrying the offending key and never yields a
template class; each of the five registered keys resolves to its template
class; the specific absent keys `"999"`, the empty string, a whitespace key
and `"not-a-key"` all fail with that error. -/
theorem c3_registry_resolve (k : String)
    (h : TEMPLATE_REGISTRY.find? (fun p => p.fst == k) = none) :
    get_template_class k = Except.error (GenError.valueError ("Unknown template: " ++ k)) ∧
    get_template_class "1" = Except.ok TemplateKind.ragAgent ∧
    get_template_class "2" = Except.ok TemplateKind.fastapiWeb ∧
    get_template_class "3" = Except.ok TemplateKind.dataScience ∧
    get_template_class "4" = Except.ok TemplateKind.automation ∧
    get_template_class "5" = Except.ok TemplateKind.simpleBoilerplate ∧
    get_template_class "999" = Except.error (GenError.valueError "Unknown template: 999") ∧
    get_template_class "" = Except.error (GenError.valueError "Unknown template: ") ∧
    get_template_class " " = Except.error (GenError.valueError "Unknown template:  ") ∧
    get_template_class "not-a-key" =
      Except.error (GenError.valueError "Unknown template: not-a-key") := by
  refine ⟨?_, by decide, by decide, by decide, by decide, by decide,
    by decide, by decide, by decide, by decide⟩
  simp [get_template_class, h]

/-- C3 witness: the key `"999"` is absent from the registry and resolving it
fails with the `Unknown template` error. -/
theorem c3_registry_resolve_witness :
    TEMPLATE_REGISTRY.find? (fun p => p.fst == "999") = none ∧
    get_template_class "999" =
      Except.error (GenError.valueError ("Unknown template: " ++ "999")) :=
  ⟨by decide, (c3_registry_resolve "999" (by decide)).1⟩

/-- C6: the registry listing returns the archetype descriptors in
table-declaration order, keys `"1"` through `"5"`, each carrying the `name`
and `description` attributes of the registered template class. -/
theorem c6_template_list_order :
    get_template_list =
      [ TemplateInfo.mk "1" "RAG Agent"
          "LangChain-based RAG agent with Streamlit UI, Qdrant, and Ollama",
        TemplateInfo.mk "2" "FastAPI Web API"
          "REST API with FastAPI, database integration, and Docker support",
        TemplateInfo.mk "3" "Data Science/ML"
          "ML project with scikit-learn, pandas, and model serving API",
        TemplateInfo.mk "4" "Task Automation"
          "Scripting and automation with CLI interface",
        TemplateInfo.mk "5" "Simple Py Boilerplate"
          "Minimal Python project with testing infrastructure and main.py" ] := by
  rfl

/-- C10: the listing has exactly five entries with pairwise distinct keys,
and for every listed descriptor the registry lookup of its key succeeds and
returns the class whose `name` and `description` equal the descriptor's
fields. -/
theorem c10_list_lookup_consistent :
    get_template_list.length = 5 ∧
    (get_template_list.map (fun d => d.key)).Nodup ∧
    (get_template_list.all (fun d =>
      match get_template_class d.key with
      | Except.ok kind => kind.name == d.name && kind.description == d.description
      | Except.error _ => false)) = true := by
  refine ⟨rfl, by decide, by decide⟩


/-- A full `mkdir(parents=True, exist_ok=True)` call only adds directory
entries to the filesystem. -/
theorem mkdirP_preserves (p : Path) (fs fs1 : FS) (r : Except GenError Unit)
    (h : mkdirP p fs = (r, fs1)) :
    (∀ x, x ∈ fs → x ∈ fs1) ∧ (∀ x, x ∈ fs1 → x ∈ fs ∨ x.snd = FSEntry.dir) :=
  mkdirSeq_preserves (pathPrefixes p) fs fs1 r h

/-- C2 counterexample: a `run_cli` run with the unknown archetype key `999`
(and a valid name and a fresh target path) reports the unknown-template
error, yet the filesystem is no longer the one the run started from: the
project directory was created before the registry lookup. -/
theorem c2_counterexample :
    run_cli (CliAnswers.mk "999" "demo" ["proj"] false) [] =
      (CliOutcome.creationError (GenError.valueError "Unknown template: 999"),
        [(["proj"], FSEntry.dir)]) ∧
    ([(["proj"], FSEntry.dir)] : FS) ≠ ([] : FS) := by
  decide

/-- C2 (amended): a `run_cli` run with an invalid project name reports the
name error and leaves the filesystem unchanged (name validation precedes
path resolution); a run with a valid name and an unknown archetype key
reports the unknown-template error carrying the key and performs no
generation, but only after the project directory has been created by
`mkdir` — the filesystem is changed by exactly that chain of new directory
entries. -/
theorem c2_invalid_input_behavior (a : CliAnswers) (fs fs1 : FS) :
    (validate_project_name a.projectName = false →
      run_cli a fs = (CliOutcome.nameError, fs)) ∧
    (validate_project_name a.projectName = true →
      TEMPLATE_REGISTRY.find? (fun p => p.fst == a.projectType) = none →
      (FS.lookup fs a.projectPathAnswer = none ∨ a.overwriteAnswer = true) →
      mkdirP a.projectPathAnswer fs = (Except.ok (), fs1) →
      run_cli a fs =
        (CliOutcome.creationError
          (GenError.valueError ("Unknown template: " ++ a.projectType)), fs1) ∧
      (∀ x, x ∈ fs → x ∈ fs1) ∧
      (∀ x, x ∈ fs1 → x ∈ fs ∨ x.snd = FSEntry.dir)) := by
  constructor
  · intro h
    simp [run_cli, h]
  · intro hname hkey hpath hmk
    have hpc : ((FS.lookup fs a.projectPathAnswer).isSome && !a.overwriteAnswer) = false := by
      rcases hpath with h | h <;> simp [h]
    have hrun : run_cli a fs =
        (CliOutcome.creationError
          (GenError.valueError ("Unknown template: " ++ a.projectType)), fs1) := by
      unfold run_cli
      rw [hname, hpc, hmk]
      simp [get_template_class, hkey]
    obtain ⟨h1, h2⟩ := mkdirP_preserves a.projectPathAnswer fs fs1 (Except.ok ()) hmk
    exact ⟨hrun, h1, h2⟩

/-- C2 witness: with an invalid name the filesystem is untouched, and with
the unknown key `999` the run reports the unknown-template error with the
fresh project directory as the only filesystem change. -/
theorem c2_invalid_input_behavior_witness :
    run_cli (CliAnswers.mk "1" "bad name" ["p"] false) [] = (CliOutcome.nameError, []) ∧
    run_cli (CliAnswers.mk "999" "demo" ["proj"] false) [] =
      (CliOutcome.creationError (GenError.valueError ("Unknown template: " ++ "999")),
        [(["proj"], FSEntry.dir)]) :=
  ⟨(c2_invalid_input_behavior (CliAnswers.mk "1" "bad name" ["p"] false) [] []).1 (by decide),
   ((c2_invalid_input_behavior (CliAnswers.mk "999" "demo" ["proj"] false) []
       [(["proj"], FSEntry.dir)]).2
     (by decide) (by decide) (Or.inl (by decide)) (by decide)).1⟩

/-- C4: generating the Web API service archetype with name `demo` into an
empty writable directory terminates without error; the manifest it writes
contains the literal substring `name = "demo"`, and its dependency section
contains the lower-case substrings `fastapi` and `uvicorn`; the files
`Dockerfile` and `docker-compose.yml` exist at the project root. -/
theorem c4_fastapi_demo_scenario :
    fastapiDemoRun.fst = Except.ok () ∧
    FS.readFile fastapiDemoRun.snd ["proj", "pyproject.toml"] =
      some (pyprojectContent "demo" fastapiDeps) ∧
    containsStr "name = \"demo\"" (pyprojectContent "demo" fastapiDeps) = true ∧
    containsStr "fastapi" (depLines fastapiDeps) = true ∧
    containsStr "uvicorn" (depLines fastapiDeps) = true ∧
    FS.isFile fastapiDemoRun.snd ["proj", "Dockerfile"] = true ∧
    FS.isFile fastapiDemoRun.snd ["proj", "docker-compose.yml"] = true := by
  decide

/-- C5: readme writing round-trips exactly — whenever `create_readme`
succeeds, reading the readme file back yields exactly the string that was
passed in, for every string including the empty one. -/
theorem c5_readme_roundtrip (t : ProjectTemplate) (s : String) (fs fs1 : FS)
    (h : create_readme t s fs = (Except.ok (), fs1)) :
    FS.readFile fs1 (t.project_path ++ ["README.md"]) = some s := by
  unfold create_readme writeFile at h
  split at h
  · split at h
    · simp at h
    · injection h with h1 h2
      subst h2
      simp [FS.readFile, FS.lookup_set]
  · simp at h

/-- C5 witness: writing the empty readme into an existing empty project
directory succeeds and reads back as the empty string. -/
theorem c5_readme_roundtrip_witness :
    FS.readFile [(["proj"], FSEntry.dir), (["proj", "README.md"], FSEntry.file "")]
      ["proj", "README.md"] = some "" :=
  c5_readme_roundtrip (ProjectTemplate.mk "demo" ["proj"]) "" [(["proj"], FSEntry.dir)]
    [(["proj"], FSEntry.dir), (["proj", "README.md"], FSEntry.file "")] (by decide)

/-- C7: generating the minimal boilerplate archetype passes an empty
archetype dependency list: the run succeeds, the manifest is exactly the one
built from the empty dependency list (its archetype-dependency block is
empty), and every entry of the fixed development-tooling dependency set
still appears in the manifest. -/
theorem c7_minimal_boilerplate_deps :
    simpleDemoRun.fst = Except.ok () ∧
    FS.readFile simpleDemoRun.snd ["proj", "pyproject.toml"] =
      some (pyprojectContent "demo" []) ∧
    depLines [] = "" ∧
    containsStr "dependencies = [\n]" (pyprojectContent "demo" []) = true ∧
    DEV_DEPENDENCIES.all (fun d => containsStr d (pyprojectContent "demo" [])) = true := by
  decide

/-- C8: a plain file at the destined path of the first common folder makes
`create_folder_structure` fail with a wrapped error naming `folder
structure` and carrying the original OS error as cause; a directory at the
manifest's destined path makes `create_pyproject_toml` fail with a wrapped
error naming `pyproject` and carrying the original cause; the folder error
propagates unchanged through `generate()` of the FastAPI and simple
boilerplate recipes. -/
theorem c8_collision_wrapped_errors (name c : String) (deps : List String) :
    (create_folder_structure (ProjectTemplate.mk name ["proj"]) []
        [(["proj"], FSEntry.dir), (["proj", "notebooks"], FSEntry.file c)] =
      (Except.error (GenError.runtimeError
          ("Failed to create folder structure: " ++
            osErrMessage (OSErr.fileExists ["proj", "notebooks"]))
          (OSErr.fileExists ["proj", "notebooks"])),
        [(["proj"], FSEntry.dir), (["proj", "notebooks"], FSEntry.file c)])) ∧
    containsStr "folder structure"
      ("Failed to create folder structure: " ++
        osErrMessage (OSErr.fileExists ["proj", "notebooks"])) = true ∧
    (create_pyproject_toml (ProjectTemplate.mk name ["proj"]) deps
        [(["proj"], FSEntry.dir), (["proj", "pyproject.toml"], FSEntry.dir)] =
      (Except.error (GenError.runtimeError
          ("Failed to create pyproject.toml: " ++
            osErrMessage (OSErr.isADirectory ["proj", "pyproject.toml"]))
          (OSErr.isADirectory ["proj", "pyproject.toml"])),
        [(["proj"], FSEntry.dir), (["proj", "pyproject.toml"], FSEntry.dir)])) ∧
    containsStr "pyproject"
      ("Failed to create pyproject.toml: " ++
        osErrMessage (OSErr.isADirectory ["proj", "pyproject.toml"])) = true ∧
    (fastapiGenerate (ProjectTemplate.mk name ["proj"])
        [(["proj"], FSEntry.dir), (["proj", "notebooks"], FSEntry.file c)] =
      (Except.error (GenError.runtimeError
          ("Failed to create folder structure: " ++
            osErrMessage (OSErr.fileExists ["proj", "notebooks"]))
          (OSErr.fileExists ["proj", "notebooks"])),
        [(["proj"], FSEntry.dir), (["proj", "notebooks"], FSEntry.file c)])) ∧
    (simpleBoilerplateGenerate (ProjectTemplate.mk name ["proj"])
        [(["proj"], FSEntry.dir), (["proj", "notebooks"], FSEntry.file c)] =
      (Except.error (GenError.runtimeError
          ("Failed to create folder structure: " ++
            osErrMessage (OSErr.fileExists ["proj", "notebooks"]))
          (OSErr.fileExists ["proj", "notebooks"])),
        [(["proj"], FSEntry.dir), (["proj", "notebooks"], FSEntry.file c)])) := by
  exact ⟨rfl, by decide, rfl, by decide, rfl, rfl⟩

/-- C9: every completed interactive project-type prompt answers a key that
is in the registry (the prompt's choices list), so the registry lookup that
`run_cli` performs on it succeeds — the unknown-template branch is
unreachable from the interactive flow. -/
theorem c9_interactive_key_safe (inputs : List (Option String)) (k : String)
    (h : get_project_type inputs = some k) :
    (TEMPLATE_REGISTRY.map Prod.fst).contains k = true ∧
    ∃ kind, get_template_class k = Except.ok kind := by
  have hmem := promptWithChoices_spec (TEMPLATE_REGISTRY.map Prod.fst) "1" inputs k h
  have hcon : (TEMPLATE_REGISTRY.map Prod.fst).contains k = true := by
    rcases hmem with h1 | h1
    · subst h1; decide
    · exact h1
  refine ⟨hcon, ?_⟩
  have h5 : k = "1" ∨ k = "2" ∨ k = "3" ∨ k = "4" ∨ k = "5" := by
    have hc := hcon
    simp only [TEMPLATE_REGISTRY, List.map, List.contains_cons,
      List.contains_nil, Bool.or_eq_true, beq_iff_eq] at hc
    tauto
  rcases h5 with h2 | h2 | h2 | h2 | h2 <;> subst h2
  · exact ⟨TemplateKind.ragAgent, by decide⟩
  · exact ⟨TemplateKind.fastapiWeb, by decide⟩
  · exact ⟨TemplateKind.dataScience, by decide⟩
  · exact ⟨TemplateKind.automation, by decide⟩
  · exact ⟨TemplateKind.simpleBoilerplate, by decide⟩

/-- C9 witness: the input stream answering `2` completes the prompt with
key `2`, which is in the registry and resolves to a template class. -/
theorem c9_interactive_key_safe_witness :
    (TEMPLATE_REGISTRY.map Prod.fst).contains "2" = true ∧
    ∃ kind, get_template_class "2" = Except.ok kind :=
  c9_interactive_key_safe [some "2"] "2" (by decide)

end ProjGen
